import Mathlib

/-!
Verification of the WeBAD-ts voice-activity-detection core against its
specification.

The development shallowly embeds the two engines of the repository:

* `VolumeMeter` / `volumeAudioProcess` — the amplitude estimator of
  `volume-meter.ts`.  JS numbers are modelled as `JNum` (a rational or the
  IEEE NaN that the unguarded `0/0` of an empty block produces);
  `Math.sqrt` is a platform primitive and is passed in as an abstract
  function `msqrt : ℚ → ℚ`, applied only to the finite quotient.
* `AudioDetection` — the classification state machine of
  `audioDetection.ts`: the state record `ADState`, the per-tick functions
  `mute`, `signal`, `silence`, `sampleThresholdsDecision`, `prerecording`,
  the tick body `tick` (the body of `run`'s timer callback) and the
  iterated run `runTicks`.  Event dispatch is modelled by returning the
  list of emitted events (name and payload snapshot) in dispatch order.

The constants of the module `audioDetectionConfig` and the helper
`average` of `utils` are not part of the sources; the constants are kept
abstract in the record `ADConsts` and `average` is modelled from the
spec.  Timestamps, volumes and counters are JS numbers and are modelled
as rationals.
-/

/-- JS number that is either finite (a rational) or the IEEE NaN.
Infinities never arise on the modelled code paths. -/
inductive JNum where
  | nan : JNum
  | fin : ℚ → JNum
deriving DecidableEq, Repr

/-- JS multiplication restricted to the values arising here: NaN is
absorbing, finite values multiply exactly. -/
def jmul : JNum → JNum → JNum
  | JNum.fin a, JNum.fin b => JNum.fin (a * b)
  | _, _ => JNum.nan

/-- JS `Math.max`: returns NaN if either argument is NaN, else the maximum. -/
def jmax : JNum → JNum → JNum
  | JNum.fin a, JNum.fin b => JNum.fin (max a b)
  | _, _ => JNum.nan

/-- Sum of the squares of the samples of a block, the value of `sum`
after the loop of `volumeAudioProcess`. -/
def sumOfSquares (buf : List ℚ) : ℚ := (buf.map fun x => x * x).sum

/-- The `Math.sqrt(sum / bufLength)` of `volumeAudioProcess`.  For an
empty block the loop leaves `sum = 0`, the division is `0/0 = NaN` and
`Math.sqrt(NaN) = NaN`; otherwise the quotient is finite and nonnegative
and `Math.sqrt` (the abstract platform primitive `msqrt`) is applied to
it. -/
def rmsOf (msqrt : ℚ → ℚ) (buf : List ℚ) : JNum :=
  if buf.length = 0 then JNum.nan
  else JNum.fin (msqrt (sumOfSquares buf / (buf.length : ℚ)))

/-- State and configuration of a `VolumeMeter` instance
(`volume-meter.ts`).  The constructor fields `clipLevel`, `averaging`,
`clipLag` are immutable; `volume`, `lastClip`, `clipping` are the mutable
fields with their initializers given by `initVolumeMeter`. -/
structure VolumeMeter where
  clipLevel : ℚ
  averaging : ℚ
  clipLag : ℚ
  volume : JNum
  lastClip : ℚ
  clipping : Bool
deriving DecidableEq, Repr

/-- A fresh `VolumeMeter` (field initializers `volume = 0`,
`lastClip = 0`, `clipping = false`). -/
def initVolumeMeter (clipLevel averaging clipLag : ℚ) : VolumeMeter :=
  { clipLevel := clipLevel, averaging := averaging, clipLag := clipLag,
    volume := JNum.fin 0, lastClip := 0, clipping := false }

/-- One call of `volumeAudioProcess` on the block `buf`.  The loop marks
clipping (and stamps `lastClip` with `performance.now()`, the parameter
`now`) whenever some sample has `|x| ≥ clipLevel`, accumulates the sum of
squares, and afterwards the smoothed volume becomes
`Math.max(rms, volume * averaging)`. -/
def volumeAudioProcess (msqrt : ℚ → ℚ) (now : ℚ) (buf : List ℚ)
    (m : VolumeMeter) : VolumeMeter :=
  let clipped := buf.any fun x => decide (m.clipLevel ≤ |x|)
  let m1 := if clipped then { m with clipping := true, lastClip := now } else m
  { m1 with volume := jmax (rmsOf msqrt buf) (jmul m1.volume (JNum.fin m1.averaging)) }

/-- Names of the custom events dispatched by `AudioDetection` (the
`CustomEvent` type strings). -/
inductive EName where
  | mute | signal | silence
  | mutedmic | unmutedmic
  | speechstart | speechstop | speechabort
  | prespeechstart
deriving DecidableEq, Repr

/-- The three values ever assigned to the `volumeState` field
(`'mute'`, `'silence'`, `'signal'`). -/
inductive VState where
  | mute | silence | signal
deriving DecidableEq, Repr

/-- Reason recorded in the `abort` field of a silence payload before a
`speechabort` dispatch; the two template strings of `silence` are
modelled as tagged constructors carrying the interpolated numbers. -/
inductive AbortReason where
  | durationTooShort (signalDuration minSignalDuration : ℚ)
  | volumeTooLow (averageVolume minAverageVolume : ℚ)
deriving DecidableEq, Repr

/-- Snapshot of an event `detail` payload at dispatch time.  `event` is
the payload's own `event` string; `duration` and `items` are absent
(`none`) for the payload shapes that lack them; `abort` is only ever set
on a silence payload right before a `speechabort` dispatch. -/
structure Payload where
  event : EName
  volume : ℚ
  timestamp : ℚ
  duration : Option ℚ
  items : Option ℚ
  abort : Option AbortReason
deriving DecidableEq, Repr

/-- One dispatched event: the `CustomEvent` name and the payload snapshot
it was dispatched with. -/
structure Emitted where
  name : EName
  payload : Payload
deriving DecidableEq, Repr

/-- Modelled from the spec: the constants of the missing module
`audioDetectionConfig` (`MAX_INTERSPEECH_SILENCE_MSECS`,
`MIN_AVERAGE_SIGNAL_VOLUME`, `MIN_SIGNAL_DURATION`,
`PRE_RECORD_START_MSECS`, `SAMPLE_POLLING_MSECS`, `VOLUME_MUTE`,
`VOLUME_SIGNAL`, `VOLUME_SILENCE`).  Their numeric values are not in the
sources, so they are kept abstract as fields. -/
structure ADConsts where
  MAX_INTERSPEECH_SILENCE_MSECS : ℚ
  MIN_AVERAGE_SIGNAL_VOLUME : ℚ
  MIN_SIGNAL_DURATION : ℚ
  PRE_RECORD_START_MSECS : ℚ
  SAMPLE_POLLING_MSECS : ℚ
  VOLUME_MUTE : ℚ
  VOLUME_SIGNAL : ℚ
  VOLUME_SILENCE : ℚ
deriving DecidableEq, Repr

/-- The `AudioDetectionConfig` fields stored by the constructor (after
defaulting); immutable thereafter. -/
structure ADConfig where
  timeoutMilliSecs : ℚ
  prespeechstartMilliSecs : ℚ
  speakingMinVolume : ℚ
  silenceVolume : ℚ
  muteVolume : ℚ
  recordingEnabled : Bool
deriving DecidableEq, Repr

/-- JS `Math.round`: round half toward positive infinity. -/
def jround (q : ℚ) : ℚ := ((⌊q + 1 / 2⌋ : ℤ) : ℚ)

/-- The field initializer
`maxSilenceItems = Math.round(MAX_INTERSPEECH_SILENCE_MSECS / SAMPLE_POLLING_MSECS)`.
It reads the two module constants only; the configured
`timeoutMilliSecs` does not occur in it. -/
def maxSilenceItems (k : ADConsts) : ℚ :=
  jround (k.MAX_INTERSPEECH_SILENCE_MSECS / k.SAMPLE_POLLING_MSECS)

/-- Mutable instance fields of `AudioDetection` with their declared
types (JS numbers as rationals, counters included). -/
structure ADState where
  volumeState : VState
  speechStarted : Bool
  silenceItems : ℚ
  signalItems : ℚ
  speechstartTime : ℚ
  prerecordingItems : ℚ
  speechVolumesList : List ℚ
deriving DecidableEq, Repr

/-- Field initializers of `AudioDetection`: `volumeState = 'mute'`,
`speechStarted = false`, all counters `0`, empty volume list. -/
def initialState : ADState :=
  { volumeState := VState.mute, speechStarted := false, silenceItems := 0,
    signalItems := 0, speechstartTime := 0, prerecordingItems := 0,
    speechVolumesList := [] }

/-- The `AudioDetection` constructor: it stores the meter and the
defaulted configuration, initializes the fields (in particular
`maxSilenceItems` from the module constants) and contains no validation
and no failing control flow; the `Except` result models the JS exception
channel, which this constructor never uses. -/
def constructAD (k : ADConsts) (_c : ADConfig) : Except String (ADState × ℚ) :=
  Except.ok (initialState, maxSilenceItems k)

/-- Modelled from the spec: the helper `average` of the missing module
`utils` — `avgVolume = average(segmentVolumes)`, the arithmetic mean of
the collected loudness samples.  On the empty list the rational division
by zero yields `0` (the resolution path is proved to only evaluate it on
non-empty lists). -/
def average (xs : List ℚ) : ℚ := xs.sum / (xs.length : ℚ)

/-- The method `averageSignal`: the average of `speechVolumesList`. -/
def averageSignal (s : ADState) : ℚ := average s.speechVolumesList

/-- The method `mute(timestamp, duration)`: dispatches `mute` always and
`mutedmic` on the `volumeState ≠ 'mute'` transition, setting
`volumeState = 'mute'`. -/
def mute (vol timestamp duration : ℚ) (s : ADState) : ADState × List Emitted :=
  let eventData : Payload :=
    { event := EName.mute, volume := vol, timestamp := timestamp,
      duration := some duration, items := none, abort := none }
  if s.volumeState ≠ VState.mute then
    ({ s with volumeState := VState.mute },
     [⟨EName.mute, eventData⟩, ⟨EName.mutedmic, eventData⟩])
  else
    (s, [⟨EName.mute, eventData⟩])

/-- The method `signal(timestamp, duration)`: zeroes `silenceItems`,
increments `signalItems`, dispatches `speechstart` (before the `signal`
sampling event) when no speech is started — setting `speechstartTime`,
`speechStarted` and clearing `speechVolumesList` — pushes the current
volume, dispatches `signal`, and dispatches `unmutedmic` on the
`volumeState = 'mute'` transition, setting `volumeState = 'signal'`. -/
def signal (vol timestamp duration : ℚ) (s : ADState) : ADState × List Emitted :=
  let s1 := { s with silenceItems := 0, signalItems := s.signalItems + 1 }
  let eventData : Payload :=
    { event := EName.signal, volume := vol, timestamp := timestamp,
      duration := some duration, items := some s1.signalItems, abort := none }
  let startEvs : List Emitted :=
    if s1.speechStarted then [] else [⟨EName.speechstart, eventData⟩]
  let s2 :=
    if s1.speechStarted then s1
    else { s1 with speechstartTime := timestamp, speechStarted := true,
                   speechVolumesList := [] }
  let s3 := { s2 with speechVolumesList := s2.speechVolumesList ++ [vol] }
  let micEvs : List Emitted :=
    if s3.volumeState = VState.mute then [⟨EName.unmutedmic, eventData⟩] else []
  let s4 :=
    if s3.volumeState = VState.mute then { s3 with volumeState := VState.signal } else s3
  (s4, startEvs ++ [⟨EName.signal, eventData⟩] ++ micEvs)

/-- The method `silence(timestamp, duration)`: zeroes `signalItems`,
increments `silenceItems`, dispatches `silence`, dispatches `unmutedmic`
on the `volumeState = 'mute'` transition (setting
`volumeState = 'silence'`), and, exactly when `speechStarted` holds and
the incremented `silenceItems` equals `maxSilenceItems`, dispatches one
verdict — `speechabort` (duration too short), `speechabort` (average
volume too low) or `speechstop` — with the silence payload (the `abort`
field set for the aborts) and sets `speechStarted = false`. -/
def silence (k : ADConsts) (vol timestamp duration : ℚ) (s : ADState) :
    ADState × List Emitted :=
  let s1 := { s with signalItems := 0, silenceItems := s.silenceItems + 1 }
  let eventData : Payload :=
    { event := EName.silence, volume := vol, timestamp := timestamp,
      duration := some duration, items := some s1.silenceItems, abort := none }
  let micEvs : List Emitted :=
    if s1.volumeState = VState.mute then [⟨EName.unmutedmic, eventData⟩] else []
  let s2 :=
    if s1.volumeState = VState.mute then { s1 with volumeState := VState.silence } else s1
  if s2.speechStarted ∧ s1.silenceItems = maxSilenceItems k then
    let signalDuration := duration - k.MAX_INTERSPEECH_SILENCE_MSECS
    let averageSignalValue := averageSignal s2
    let verdict : Emitted :=
      if signalDuration < k.MIN_SIGNAL_DURATION then
        ⟨EName.speechabort,
         { eventData with abort := some (AbortReason.durationTooShort signalDuration k.MIN_SIGNAL_DURATION) }⟩
      else if averageSignalValue < k.MIN_AVERAGE_SIGNAL_VOLUME then
        ⟨EName.speechabort,
         { eventData with abort := some (AbortReason.volumeTooLow averageSignalValue k.MIN_AVERAGE_SIGNAL_VOLUME) }⟩
      else
        ⟨EName.speechstop, eventData⟩
    ({ s2 with speechStarted := false },
     ⟨EName.silence, eventData⟩ :: micEvs ++ [verdict])
  else
    (s2, ⟨EName.silence, eventData⟩ :: micEvs)

/-- The method `sampleThresholdsDecision`: reads `Date.now()` (the
parameter `now`) and the meter volume, computes
`duration = now - speechstartTime`, and branches: below `muteVolume` to
`mute`, above `speakingMinVolume` to `signal`, otherwise to `silence`. -/
def sampleThresholdsDecision (k : ADConsts) (c : ADConfig) (vol now : ℚ)
    (s : ADState) : ADState × List Emitted :=
  let duration := now - s.speechstartTime
  if vol < c.muteVolume then mute vol now duration s
  else if vol > c.speakingMinVolume then signal vol now duration s
  else silence k vol now duration s

/-- The method `prerecording`: increments `prerecordingItems`; when
`prerecordingItems * timeoutMilliSecs ≥ prespeechstartMilliSecs` it
dispatches `prespeechstart` (only if no speech is started) and
unconditionally resets the counter to `0`. -/
def prerecording (c : ADConfig) (vol now : ℚ) (s : ADState) :
    ADState × List Emitted :=
  let s1 := { s with prerecordingItems := s.prerecordingItems + 1 }
  let eventData : Payload :=
    { event := EName.prespeechstart, volume := vol, timestamp := now,
      duration := none, items := some s1.prerecordingItems, abort := none }
  if s1.prerecordingItems * c.timeoutMilliSecs ≥ c.prespeechstartMilliSecs then
    ({ s1 with prerecordingItems := 0 },
     if s1.speechStarted then [] else [⟨EName.prespeechstart, eventData⟩])
  else
    (s1, [])

/-- The body of one timer callback of `run`: `prerecording` always, then
`sampleThresholdsDecision` only when `recordingEnabled`. -/
def tick (k : ADConsts) (c : ADConfig) (vol now : ℚ) (s : ADState) :
    ADState × List Emitted :=
  let r1 := prerecording c vol now s
  if c.recordingEnabled then
    let r2 := sampleThresholdsDecision k c vol now r1.1
    (r2.1, r1.2 ++ r2.2)
  else
    r1

/-- Iterated ticks: each list entry is the meter volume and `Date.now()`
value read by one tick; the emitted events are concatenated in order. -/
def runTicks (k : ADConsts) (c : ADConfig) : List (ℚ × ℚ) → ADState → ADState × List Emitted
  | [], s => (s, [])
  | (vol, now) :: rest, s =>
    let r := tick k c vol now s
    let r2 := runTicks k c rest r.1
    (r2.1, r.2 ++ r2.2)

/-- Sampling events of a tick: `mute`, `signal` or `silence`. -/
def isSampling (e : Emitted) : Bool :=
  match e.name with
  | EName.mute | EName.signal | EName.silence => true
  | _ => false

/-- Terminal (segment-resolving) events: `speechstop` or `speechabort`. -/
def isTerminal (e : Emitted) : Bool :=
  match e.name with
  | EName.speechstop | EName.speechabort => true
  | _ => false

/-- Resolution events in the sense of the ordering claim:
`speechstart`, `speechstop` or `speechabort`. -/
def isResolution (e : Emitted) : Bool :=
  match e.name with
  | EName.speechstart | EName.speechstop | EName.speechabort => true
  | _ => false

/-- Microphone transition events: `mutedmic` or `unmutedmic`. -/
def isMicTransition (e : Emitted) : Bool :=
  match e.name with
  | EName.mutedmic | EName.unmutedmic => true
  | _ => false

/-- The terminal events among a dispatch list, in dispatch order. -/
def terminalEvents (evs : List Emitted) : List Emitted := evs.filter isTerminal

/-- Payloads of the sampling events of a dispatch list. -/
def samplingPayloads (evs : List Emitted) : List Payload :=
  (evs.filter isSampling).map Emitted.payload

/-- Decides that within `evs` every `p`-event is dispatched strictly
before every `q`-event: no `p`-event occurs after a `q`-event. -/
def orderedBefore (p q : Emitted → Bool) : List Emitted → Bool
  | [] => true
  | e :: rest => (!q e || rest.all fun x => !p x) && orderedBefore p q rest

/-- Concrete constants for witnesses: 1000 ms interspeech silence window,
100 ms polling (so `maxSilenceItems = 10`), 300 ms minimum signal
duration, 1/10 minimum average volume, thresholds 1/100 and 3/10. -/
def kW : ADConsts :=
  { MAX_INTERSPEECH_SILENCE_MSECS := 1000, MIN_AVERAGE_SIGNAL_VOLUME := 1/10,
    MIN_SIGNAL_DURATION := 300, PRE_RECORD_START_MSECS := 600,
    SAMPLE_POLLING_MSECS := 100, VOLUME_MUTE := 1/100, VOLUME_SIGNAL := 3/10,
    VOLUME_SILENCE := 2/100 }

/-- Concrete configuration for witnesses, matching `kW`'s defaults. -/
def cW : ADConfig :=
  { timeoutMilliSecs := 100, prespeechstartMilliSecs := 600,
    speakingMinVolume := 3/10, silenceVolume := 2/100, muteVolume := 1/100,
    recordingEnabled := true }

/-- Configuration whose tick interval (200 ms) differs from the module
polling constant of `kW` (100 ms). -/
def cC2 : ADConfig := { cW with timeoutMilliSecs := 200 }

/-- State of an active segment one silence tick before resolution under
`kW`: nine consecutive silence ticks seen, one collected volume 1/2. -/
def sRes : ADState :=
  { volumeState := VState.silence, speechStarted := true, silenceItems := 9,
    signalItems := 0, speechstartTime := 0, prerecordingItems := 0,
    speechVolumesList := [1/2] }

/-- Misconfigured constants: `maxSilenceItems = round(100/1000) = 0`. -/
def kBad : ADConsts :=
  { MAX_INTERSPEECH_SILENCE_MSECS := 100, MIN_AVERAGE_SIGNAL_VOLUME := 1/10,
    MIN_SIGNAL_DURATION := 300, PRE_RECORD_START_MSECS := 600,
    SAMPLE_POLLING_MSECS := 1000, VOLUME_MUTE := 1/100, VOLUME_SIGNAL := 3/10,
    VOLUME_SILENCE := 2/100 }

/-- Misconfigured thresholds: `muteVolume = 1/2 ≥ speakingMinVolume = 3/10`. -/
def cBad : ADConfig := { cW with muteVolume := 1/2 }

/-- The payload the resolution tick of `sRes` dispatches `speechstop` with. -/
def stopPayloadW : Payload :=
  { event := EName.silence, volume := 1/50, timestamp := 2000,
    duration := some 2000, items := some 10, abort := none }

/-- The `speechstop` event of the resolution tick of `sRes`. -/
def stopEvW : Emitted := ⟨EName.speechstop, stopPayloadW⟩

/-- After a silence tick, speech remains started exactly when it was
started and the incremented silence counter missed `maxSilenceItems`. -/
lemma silence_speechStarted_eq (k : ADConsts) (vol ts dur : ℚ) (s : ADState) :
    (silence k vol ts dur s).1.speechStarted =
      (s.speechStarted && !(decide (s.silenceItems + 1 = maxSilenceItems k))) := by
  unfold silence
  dsimp only
  split_ifs with h1 h2 h3 <;> simp_all

/-- A silence tick dispatches exactly one terminal event when speech is
started and the incremented counter hits `maxSilenceItems`, else none. -/
lemma silence_terminal_count (k : ADConsts) (vol ts dur : ℚ) (s : ADState) :
    (terminalEvents (silence k vol ts dur s).2).length =
      if s.speechStarted ∧ s.silenceItems + 1 = maxSilenceItems k then 1 else 0 := by
  unfold silence terminalEvents
  dsimp only
  split_ifs with h1 h2 h3 <;>
    simp_all [isTerminal, List.filter]

/-- On the resolving silence tick, speech is stopped and the single
terminal event is the abort/abort/stop verdict of the source. -/
lemma silence_resolved (k : ADConsts) (vol ts dur : ℚ) (s : ADState)
    (h : s.speechStarted ∧ s.silenceItems + 1 = maxSilenceItems k) :
    (silence k vol ts dur s).1.speechStarted = false ∧
    (terminalEvents (silence k vol ts dur s).2).map (fun e => (e.name, e.payload.abort)) =
      [if dur - k.MAX_INTERSPEECH_SILENCE_MSECS < k.MIN_SIGNAL_DURATION then
         (EName.speechabort, some (AbortReason.durationTooShort (dur - k.MAX_INTERSPEECH_SILENCE_MSECS) k.MIN_SIGNAL_DURATION))
       else if averageSignal s < k.MIN_AVERAGE_SIGNAL_VOLUME then
         (EName.speechabort, some (AbortReason.volumeTooLow (averageSignal s) k.MIN_AVERAGE_SIGNAL_VOLUME))
       else (EName.speechstop, none)] := by
  unfold silence terminalEvents
  dsimp only
  split_ifs with h1 h2 h3 h4 h5 <;>
    simp_all [isTerminal, List.filter, averageSignal] <;> linarith

/-- A mute tick leaves `speechStarted` and the volume list untouched. -/
lemma mute_fields (vol ts dur : ℚ) (s : ADState) :
    (mute vol ts dur s).1.speechStarted = s.speechStarted ∧
    (mute vol ts dur s).1.speechVolumesList = s.speechVolumesList := by
  unfold mute
  split_ifs <;> simp_all

/-- A signal tick always leaves a non-empty volume list (it pushes the
current volume after any clearing). -/
lemma signal_list_nonempty (vol ts dur : ℚ) (s : ADState) :
    (signal vol ts dur s).1.speechVolumesList ≠ [] := by
  unfold signal
  dsimp only
  split_ifs <;> simp_all

/-- A silence tick never touches the volume list. -/
lemma silence_list_eq (k : ADConsts) (vol ts dur : ℚ) (s : ADState) :
    (silence k vol ts dur s).1.speechVolumesList = s.speechVolumesList := by
  unfold silence
  dsimp only
  split_ifs <;> simp_all

/-- The heartbeat touches neither `speechStarted` nor the volume list. -/
lemma prerecording_fields (c : ADConfig) (vol now : ℚ) (s : ADState) :
    (prerecording c vol now s).1.speechStarted = s.speechStarted ∧
    (prerecording c vol now s).1.speechVolumesList = s.speechVolumesList := by
  unfold prerecording
  dsimp only
  split_ifs <;> simp_all

/-- One tick preserves the invariant that an active segment has a
non-empty volume list. -/
lemma tick_segInv (k : ADConsts) (c : ADConfig) (vol now : ℚ) (s : ADState)
    (h : s.speechStarted = true → s.speechVolumesList ≠ []) :
    (tick k c vol now s).1.speechStarted = true →
      (tick k c vol now s).1.speechVolumesList ≠ [] := by
  unfold tick sampleThresholdsDecision
  dsimp only
  have hp := prerecording_fields c vol now s
  split_ifs with hrec hm hs
  · intro hst
    have := mute_fields vol now (now - (prerecording c vol now s).1.speechstartTime) (prerecording c vol now s).1
    rw [this.2, hp.2]
    exact h (by rw [← hp.1, ← this.1]; exact hst)
  · intro _
    exact signal_list_nonempty vol now (now - (prerecording c vol now s).1.speechstartTime) (prerecording c vol now s).1
  · intro hst
    rw [silence_list_eq, hp.2]
    apply h
    rw [← hp.1]
    have hss := silence_speechStarted_eq k vol now (now - (prerecording c vol now s).1.speechstartTime) (prerecording c vol now s).1
    rw [hss] at hst
    exact (Bool.and_eq_true_iff.mp hst).1
  · intro hst
    rw [hp.2]
    exact h (by rw [← hp.1]; exact hst)

/-- Any run of ticks preserves the non-empty-volume-list invariant. -/
lemma runTicks_segInv (k : ADConsts) (c : ADConfig) (l : List (ℚ × ℚ)) (s : ADState)
    (h : s.speechStarted = true → s.speechVolumesList ≠ []) :
    (runTicks k c l s).1.speechStarted = true →
      (runTicks k c l s).1.speechVolumesList ≠ [] := by
  induction l generalizing s with
  | nil => exact h
  | cons p rest ih =>
    obtain ⟨vol, now⟩ := p
    exact ih (tick k c vol now s).1 (tick_segInv k c vol now s h)

/-- Prepending events in which `q` never holds does not affect
`orderedBefore p q`. -/
lemma orderedBefore_append_of_no_q (p q : Emitted → Bool) (a b : List Emitted)
    (ha : ∀ e ∈ a, q e = false) :
    orderedBefore p q (a ++ b) = orderedBefore p q b := by
  induction a with
  | nil => rfl
  | cons e rest ih =>
    have he := ha e (List.mem_cons_self e rest)
    simp [orderedBefore, he, ih fun x hx => ha x (List.mem_cons_of_mem e hx)]

/-- The heartbeat only ever dispatches `prespeechstart`. -/
lemma prerecording_names (c : ADConfig) (vol now : ℚ) (s : ADState) :
    ∀ e ∈ (prerecording c vol now s).2, e.name = EName.prespeechstart := by
  unfold prerecording
  dsimp only
  split_ifs <;> simp_all

/-- In a mute tick the sampling event precedes terminal and mic events. -/
lemma mute_order (vol ts dur : ℚ) (s : ADState) :
    orderedBefore isSampling isTerminal (mute vol ts dur s).2 = true ∧
    orderedBefore isSampling isMicTransition (mute vol ts dur s).2 = true := by
  unfold mute
  dsimp only
  split_ifs <;>
    simp [orderedBefore, isSampling, isTerminal, isMicTransition]

/-- In a signal tick the sampling event precedes terminal and mic events. -/
lemma signal_order (vol ts dur : ℚ) (s : ADState) :
    orderedBefore isSampling isTerminal (signal vol ts dur s).2 = true ∧
    orderedBefore isSampling isMicTransition (signal vol ts dur s).2 = true := by
  unfold signal
  dsimp only
  split_ifs <;>
    simp [orderedBefore, isSampling, isTerminal, isMicTransition]

/-- In a silence tick the sampling event precedes terminal and mic events. -/
lemma silence_order (k : ADConsts) (vol ts dur : ℚ) (s : ADState) :
    orderedBefore isSampling isTerminal (silence k vol ts dur s).2 = true ∧
    orderedBefore isSampling isMicTransition (silence k vol ts dur s).2 = true := by
  unfold silence
  dsimp only
  split_ifs <;>
    simp [orderedBefore, isSampling, isTerminal, isMicTransition]

/-- JS `Math.max` with a NaN first argument is NaN. -/
lemma jmax_nan_left (y : JNum) : jmax JNum.nan y = JNum.nan := by
  cases y <;> rfl

/-- A tick's dispatch list satisfies the claim that every `speechstart`
event carries a zero duration (boolean check used to refute C3). -/
def speechstartDurationZero (evs : List Emitted) : Bool :=
  evs.all fun e =>
    match e.name with
    | EName.speechstart => e.payload.duration == some 0
    | _ => true

/-- Claim C1: on a silence tick, exactly one terminal event is dispatched
precisely when speech is active and the incremented consecutive-silence
counter equals `maxSilenceItems` — never earlier and never otherwise —
and in that case the verdict is `speechabort` when
`duration - MAX_INTERSPEECH_SILENCE_MSECS < MIN_SIGNAL_DURATION`, else
`speechabort` when the average of the collected volumes is below
`MIN_AVERAGE_SIGNAL_VOLUME`, else `speechstop`; in all three outcomes
`speechStarted` becomes false. -/
theorem silence_resolution_exact (k : ADConsts) (vol ts dur : ℚ) (s : ADState) :
    (terminalEvents (silence k vol ts dur s).2).length =
      (if s.speechStarted ∧ s.silenceItems + 1 = maxSilenceItems k then 1 else 0) ∧
    ((s.speechStarted ∧ s.silenceItems + 1 = maxSilenceItems k) →
      (silence k vol ts dur s).1.speechStarted = false ∧
      (terminalEvents (silence k vol ts dur s).2).map (fun e => (e.name, e.payload.abort)) =
        [if dur - k.MAX_INTERSPEECH_SILENCE_MSECS < k.MIN_SIGNAL_DURATION then
           (EName.speechabort, some (AbortReason.durationTooShort (dur - k.MAX_INTERSPEECH_SILENCE_MSECS) k.MIN_SIGNAL_DURATION))
         else if averageSignal s < k.MIN_AVERAGE_SIGNAL_VOLUME then
           (EName.speechabort, some (AbortReason.volumeTooLow (averageSignal s) k.MIN_AVERAGE_SIGNAL_VOLUME))
         else (EName.speechstop, none)]) :=
  ⟨silence_terminal_count k vol ts dur s, fun h => silence_resolved k vol ts dur s h⟩

/-- Claim C1 witness: under `kW`, the tenth consecutive silence tick of
the active segment `sRes` resolves it with `speechstop`. -/
theorem silence_resolution_exact_witness :
    (sRes.speechStarted ∧ sRes.silenceItems + 1 = maxSilenceItems kW) ∧
    ((silence kW (1/50) 2000 2000 sRes).1.speechStarted = false ∧
     (terminalEvents (silence kW (1/50) 2000 2000 sRes).2).map (fun e => (e.name, e.payload.abort)) =
       [if (2000 : ℚ) - kW.MAX_INTERSPEECH_SILENCE_MSECS < kW.MIN_SIGNAL_DURATION then
          (EName.speechabort, some (AbortReason.durationTooShort ((2000 : ℚ) - kW.MAX_INTERSPEECH_SILENCE_MSECS) kW.MIN_SIGNAL_DURATION))
        else if averageSignal sRes < kW.MIN_AVERAGE_SIGNAL_VOLUME then
          (EName.speechabort, some (AbortReason.volumeTooLow (averageSignal sRes) kW.MIN_AVERAGE_SIGNAL_VOLUME))
        else (EName.speechstop, none)]) :=
  ⟨by norm_num [sRes, kW, maxSilenceItems, jround],
   (silence_resolution_exact kW (1/50) 2000 2000 sRes).2
     (by norm_num [sRes, kW, maxSilenceItems, jround])⟩

/-- Claim C2 counterexample: with module constants
`MAX_INTERSPEECH_SILENCE_MSECS = 1000`, `SAMPLE_POLLING_MSECS = 100` and a
configured tick interval of 200 ms, the stored threshold is 10, not
`round(1000/200) = 5`: it is not computed from the tick interval in use. -/
theorem maxSilenceItems_not_from_configured_interval :
    decide (maxSilenceItems kW = jround (kW.MAX_INTERSPEECH_SILENCE_MSECS / cC2.timeoutMilliSecs)) = false := by
  norm_num [kW, cC2, cW, maxSilenceItems, jround]

/-- Claim C2 (amended): every constructed classifier stores
`maxSilenceItems = round(MAX_INTERSPEECH_SILENCE_MSECS / SAMPLE_POLLING_MSECS)`,
computed from the compile-time default polling constant and independent of
the configured `timeoutMilliSecs`, and the silence path resolves a segment
exactly when the incremented counter equals that value. -/
theorem maxSilenceItems_from_default_polling (k : ADConsts) (c : ADConfig)
    (vol ts dur : ℚ) (s : ADState) :
    constructAD k c =
      Except.ok (initialState, jround (k.MAX_INTERSPEECH_SILENCE_MSECS / k.SAMPLE_POLLING_MSECS)) ∧
    (terminalEvents (silence k vol ts dur s).2).length =
      (if s.speechStarted ∧ s.silenceItems + 1 = jround (k.MAX_INTERSPEECH_SILENCE_MSECS / k.SAMPLE_POLLING_MSECS) then 1 else 0) :=
  ⟨rfl, silence_terminal_count k vol ts dur s⟩

/-- Claim C3 counterexample: on the very first signal tick from the
initial state at `Date.now() = 1000`, the dispatched `speechstart` event
carries `duration = 1000` (the stale `now - speechstartTime`), not 0. -/
theorem speechstart_duration_not_zero :
    speechstartDurationZero ((sampleThresholdsDecision kW cW (1/2) 1000 initialState).2) = false := by
  norm_num [speechstartDurationZero, sampleThresholdsDecision, signal, kW, cW, initialState]

/-- Claim C3 (amended): on the first signal tick of a new segment the
dispatched `speechstart` event carries
`duration = now - speechstartTime` computed from the previous (stale)
`speechstartTime`, not 0, and the tick sets `speechStarted = true`,
`speechstartTime = now` and resets `speechVolumesList` to the current
volume alone. -/
theorem speechstart_payload (k : ADConsts) (c : ADConfig) (vol now : ℚ) (s : ADState)
    (h1 : s.speechStarted = false) (h2 : ¬ vol < c.muteVolume)
    (h3 : vol > c.speakingMinVolume) :
    (sampleThresholdsDecision k c vol now s).2.head? =
      some ⟨EName.speechstart,
        { event := EName.signal, volume := vol, timestamp := now,
          duration := some (now - s.speechstartTime),
          items := some (s.signalItems + 1), abort := none }⟩ ∧
    (sampleThresholdsDecision k c vol now s).1.speechStarted = true ∧
    (sampleThresholdsDecision k c vol now s).1.speechstartTime = now ∧
    (sampleThresholdsDecision k c vol now s).1.speechVolumesList = [vol] := by
  unfold sampleThresholdsDecision signal
  dsimp only
  split_ifs <;> simp_all

/-- Claim C3 witness: the first signal tick from the initial state at
volume 1/2 and `Date.now() = 1000` under `kW`, `cW`. -/
theorem speechstart_payload_witness :
    initialState.speechStarted = false ∧
    ¬ (1 : ℚ)/2 < cW.muteVolume ∧
    (1 : ℚ)/2 > cW.speakingMinVolume ∧
    ((sampleThresholdsDecision kW cW (1/2) 1000 initialState).2.head? =
      some ⟨EName.speechstart,
        { event := EName.signal, volume := 1/2, timestamp := 1000,
          duration := some ((1000 : ℚ) - initialState.speechstartTime),
          items := some (initialState.signalItems + 1), abort := none }⟩ ∧
     (sampleThresholdsDecision kW cW (1/2) 1000 initialState).1.speechStarted = true ∧
     (sampleThresholdsDecision kW cW (1/2) 1000 initialState).1.speechstartTime = 1000 ∧
     (sampleThresholdsDecision kW cW (1/2) 1000 initialState).1.speechVolumesList = [1/2]) :=
  ⟨rfl, by norm_num [cW], by norm_num [cW],
   speechstart_payload kW cW (1/2) 1000 initialState rfl
     (by norm_num [cW]) (by norm_num [cW])⟩

/-- Claim C4: the source does not guard the empty block — processing a
zero-length block evaluates `Math.sqrt(0/0) = NaN` and the smoothed
volume becomes NaN (for every prior meter state and every interpretation
of the square root), instead of the claimed `rms = 0`. -/
theorem volumeAudioProcess_empty_block_nan (msqrt : ℚ → ℚ) (now : ℚ) (m : VolumeMeter) :
    (volumeAudioProcess msqrt now [] m).volume = JNum.nan := by
  unfold volumeAudioProcess rmsOf
  simp [jmax_nan_left]

/-- Claim C5 counterexample: on the segment-opening signal tick from the
initial state, `speechstart` is dispatched before the `signal` sampling
event, so the sampling event does not precede every resolution event. -/
theorem sampling_order_violated :
    orderedBefore isSampling isResolution
      ((sampleThresholdsDecision kW cW (1/2) 1000 initialState).2) = false := by
  norm_num [sampleThresholdsDecision, signal, kW, cW, initialState, orderedBefore,
    isSampling, isResolution]

/-- Claim C5 (amended): within every tick the sampling event
(`mute`/`signal`/`silence`) is dispatched before every terminal event
(`speechstop`, `speechabort`) and before every microphone transition
event (`mutedmic`, `unmutedmic`); `speechstart`, however, precedes the
sampling event on the tick that opens a segment. -/
theorem sampling_precedes_order (k : ADConsts) (c : ADConfig) (vol now : ℚ) (s : ADState) :
    orderedBefore isSampling isTerminal (tick k c vol now s).2 = true ∧
    orderedBefore isSampling isMicTransition (tick k c vol now s).2 = true := by
  have hnames := prerecording_names c vol now s
  have hqT : ∀ e ∈ (prerecording c vol now s).2, isTerminal e = false := by
    intro e he; rw [isTerminal, hnames e he]
  have hqM : ∀ e ∈ (prerecording c vol now s).2, isMicTransition e = false := by
    intro e he; rw [isMicTransition, hnames e he]
  unfold tick
  dsimp only
  split_ifs with hrec
  · rw [orderedBefore_append_of_no_q _ _ _ _ hqT,
        orderedBefore_append_of_no_q _ _ _ _ hqM]
    unfold sampleThresholdsDecision
    split_ifs
    · exact mute_order _ _ _ _
    · exact signal_order _ _ _ _
    · exact silence_order _ _ _ _ _
  · constructor
    · have : (prerecording c vol now s).2 = (prerecording c vol now s).2 ++ [] := by simp
      rw [this, orderedBefore_append_of_no_q _ _ _ _ hqT]; rfl
    · have : (prerecording c vol now s).2 = (prerecording c vol now s).2 ++ [] := by simp
      rw [this, orderedBefore_append_of_no_q _ _ _ _ hqM]; rfl

/-- Claim C6: for a non-empty block and a finite nonnegative prior
volume, the processed volume equals `max(rms, volume * averaging)`, so it
is at least `volume * averaging` and at least 0. -/
theorem volumeAudioProcess_fast_attack (msqrt : ℚ → ℚ) (now : ℚ) (buf : List ℚ)
    (m : VolumeMeter) (v : ℚ) (hbuf : buf ≠ []) (hv : m.volume = JNum.fin v)
    (hv0 : 0 ≤ v) (ha : 0 ≤ m.averaging) :
    (volumeAudioProcess msqrt now buf m).volume =
      JNum.fin (max (msqrt (sumOfSquares buf / (buf.length : ℚ))) (v * m.averaging)) ∧
    v * m.averaging ≤ max (msqrt (sumOfSquares buf / (buf.length : ℚ))) (v * m.averaging) ∧
    0 ≤ max (msqrt (sumOfSquares buf / (buf.length : ℚ))) (v * m.averaging) := by
  refine ⟨?_, le_max_right _ _, le_trans (mul_nonneg hv0 ha) (le_max_right _ _)⟩
  unfold volumeAudioProcess rmsOf
  dsimp only
  split_ifs <;> simp_all [jmax, jmul]

/-- Claim C6 witness: the block `[1]` on a fresh default meter. -/
theorem volumeAudioProcess_fast_attack_witness :
    ([(1 : ℚ)] ≠ []) ∧
    (initVolumeMeter (98/100) (95/100) 750).volume = JNum.fin 0 ∧
    (0 : ℚ) ≤ 0 ∧
    (0 : ℚ) ≤ (initVolumeMeter (98/100) (95/100) 750).averaging ∧
    ((volumeAudioProcess (fun q => q) 0 [1] (initVolumeMeter (98/100) (95/100) 750)).volume =
      JNum.fin (max ((fun q => q) (sumOfSquares [1] / (([(1 : ℚ)].length : ℚ)))) (0 * (initVolumeMeter (98/100) (95/100) 750).averaging)) ∧
     (0 : ℚ) * (initVolumeMeter (98/100) (95/100) 750).averaging ≤
       max ((fun q => q) (sumOfSquares [1] / (([(1 : ℚ)].length : ℚ)))) (0 * (initVolumeMeter (98/100) (95/100) 750).averaging) ∧
     (0 : ℚ) ≤ max ((fun q => q) (sumOfSquares [1] / (([(1 : ℚ)].length : ℚ)))) (0 * (initVolumeMeter (98/100) (95/100) 750).averaging)) :=
  ⟨by simp, rfl, le_refl 0, by norm_num [initVolumeMeter],
   volumeAudioProcess_fast_attack (fun q => q) 0 [1] (initVolumeMeter (98/100) (95/100) 750) 0
     (by simp) rfl (le_refl 0) (by norm_num [initVolumeMeter])⟩

/-- Claim C7: the constructor performs no validation — with constants
rounding `maxSilenceItems` to 0 and non-monotonic thresholds
(`muteVolume = 1/2 ≥ speakingMinVolume = 3/10`) construction still
succeeds with the ordinary initial state, and segment resolution is then
degenerate: the first silence tick of an active segment (incremented
counter 1, never equal to the threshold 0) emits no terminal event. -/
theorem constructAD_accepts_misconfiguration :
    constructAD kBad cBad = Except.ok (initialState, 0) ∧
    terminalEvents (silence kBad (1/50) 200 200
      { initialState with speechStarted := true, speechVolumesList := [1/2] }).2 = [] := by
  constructor
  · norm_num [constructAD, kBad, maxSilenceItems, jround]
  · norm_num [silence, terminalEvents, isTerminal, initialState, kBad, maxSilenceItems,
      jround, List.filter, averageSignal, average]

/-- Claim C8: each heartbeat call dispatches at most one event, never
dispatches while speech is active, and when the incremented counter
satisfies `prerecordingItems * timeoutMilliSecs ≥ prespeechstartMilliSecs`
it resets the counter to 0 whether or not `prespeechstart` was dispatched
(dispatching exactly when speech is not active); below the threshold it
keeps the incremented counter and dispatches nothing. -/
theorem prerecording_window (c : ADConfig) (vol now : ℚ) (s : ADState) :
    (prerecording c vol now s).2.length ≤ 1 ∧
    (s.speechStarted = true → (prerecording c vol now s).2 = []) ∧
    ((s.prerecordingItems + 1) * c.timeoutMilliSecs ≥ c.prespeechstartMilliSecs →
      (prerecording c vol now s).1.prerecordingItems = 0 ∧
      (prerecording c vol now s).2 = (if s.speechStarted then [] else
        [⟨EName.prespeechstart,
          { event := EName.prespeechstart, volume := vol, timestamp := now,
            duration := none, items := some (s.prerecordingItems + 1), abort := none }⟩])) ∧
    (¬ ((s.prerecordingItems + 1) * c.timeoutMilliSecs ≥ c.prespeechstartMilliSecs) →
      (prerecording c vol now s).1.prerecordingItems = s.prerecordingItems + 1 ∧
      (prerecording c vol now s).2 = []) := by
  unfold prerecording
  dsimp only
  split_ifs <;> simp_all

/-- Claim C8 witness: the sixth heartbeat tick under `cW`
(`6 * 100 ≥ 600`) with speech not active dispatches `prespeechstart` and
resets the counter. -/
theorem prerecording_window_witness :
    (({ initialState with prerecordingItems := 5 } : ADState).prerecordingItems + 1) * cW.timeoutMilliSecs ≥ cW.prespeechstartMilliSecs ∧
    ((prerecording cW (1/2) 700 { initialState with prerecordingItems := 5 }).1.prerecordingItems = 0 ∧
     (prerecording cW (1/2) 700 { initialState with prerecordingItems := 5 }).2 =
       (if ({ initialState with prerecordingItems := 5 } : ADState).speechStarted then [] else
         [⟨EName.prespeechstart,
           { event := EName.prespeechstart, volume := 1/2, timestamp := 700,
             duration := none, items := some (({ initialState with prerecordingItems := 5 } : ADState).prerecordingItems + 1), abort := none }⟩])) :=
  ⟨by norm_num [initialState, cW],
   (prerecording_window cW (1/2) 700 { initialState with prerecordingItems := 5 }).2.2.1
     (by norm_num [initialState, cW])⟩

/-- Claim C9: after any run of ticks from the initial state, whenever
`speechStarted` is true the collected `speechVolumesList` is non-empty,
so the `average` taken at segment resolution is a genuine division by the
non-zero list length. -/
theorem speechVolumes_nonempty_when_active (k : ADConsts) (c : ADConfig)
    (l : List (ℚ × ℚ)) (h : (runTicks k c l initialState).1.speechStarted = true) :
    (runTicks k c l initialState).1.speechVolumesList ≠ [] ∧
    average (runTicks k c l initialState).1.speechVolumesList *
      (((runTicks k c l initialState).1.speechVolumesList.length : ℚ)) =
      (runTicks k c l initialState).1.speechVolumesList.sum := by
  have h1 := runTicks_segInv k c l initialState (by intro hx; simp [initialState] at hx) h
  refine ⟨h1, ?_⟩
  unfold average
  rw [div_mul_cancel₀]
  exact_mod_cast Nat.cast_ne_zero.mpr (fun hz => h1 (List.length_eq_zero.mp hz))

/-- Claim C9 witness: one signal tick from the initial state opens a
segment whose volume list is `[1/2]`. -/
theorem speechVolumes_nonempty_when_active_witness :
    (runTicks kW cW [(1/2, 100)] initialState).1.speechStarted = true ∧
    ((runTicks kW cW [(1/2, 100)] initialState).1.speechVolumesList ≠ [] ∧
     average (runTicks kW cW [(1/2, 100)] initialState).1.speechVolumesList *
       (((runTicks kW cW [(1/2, 100)] initialState).1.speechVolumesList.length : ℚ)) =
       (runTicks kW cW [(1/2, 100)] initialState).1.speechVolumesList.sum) :=
  ⟨by norm_num [runTicks, tick, prerecording, sampleThresholdsDecision, mute, signal,
      silence, initialState, kW, cW],
   speechVolumes_nonempty_when_active kW cW [(1/2, 100)]
     (by norm_num [runTicks, tick, prerecording, sampleThresholdsDecision, mute, signal,
        silence, initialState, kW, cW])⟩

/-- Claim C10: within a classification tick every derived event carries
the payload snapshot of the tick's unique sampling event: `speechstart`
the signal payload, `mutedmic` the mute payload, `unmutedmic` the payload
of its path's sampling event, `speechstop` the silence payload (whose
`items` equals `maxSilenceItems`), and `speechabort` the silence payload
with only its `abort` field set. -/
theorem derived_events_share_payload (k : ADConsts) (c : ADConfig) (vol now : ℚ) (s : ADState) :
    ∀ e ∈ (sampleThresholdsDecision k c vol now s).2,
      (e.name = EName.speechstart →
        samplingPayloads (sampleThresholdsDecision k c vol now s).2 = [e.payload] ∧
        e.payload.event = EName.signal) ∧
      (e.name = EName.unmutedmic →
        samplingPayloads (sampleThresholdsDecision k c vol now s).2 = [e.payload]) ∧
      (e.name = EName.mutedmic →
        samplingPayloads (sampleThresholdsDecision k c vol now s).2 = [e.payload] ∧
        e.payload.event = EName.mute) ∧
      (e.name = EName.speechstop →
        samplingPayloads (sampleThresholdsDecision k c vol now s).2 = [e.payload] ∧
        e.payload.event = EName.silence ∧
        e.payload.items = some (maxSilenceItems k) ∧ e.payload.abort = none) ∧
      (e.name = EName.speechabort →
        samplingPayloads (sampleThresholdsDecision k c vol now s).2 = [{ e.payload with abort := none }] ∧
        e.payload.event = EName.silence ∧
        e.payload.items = some (maxSilenceItems k) ∧ e.payload.abort ≠ none) := by
  unfold sampleThresholdsDecision mute signal silence
  dsimp only
  split_ifs <;>
    simp_all [samplingPayloads, isSampling, List.filter]

/-- Claim C10 witness: the `speechstop` of the resolution tick of `sRes`
carries exactly the silence payload of that tick. -/
theorem derived_events_share_payload_witness :
    stopEvW ∈ (sampleThresholdsDecision kW cW (1/50) 2000 sRes).2 ∧
    stopEvW.name = EName.speechstop ∧
    (samplingPayloads (sampleThresholdsDecision kW cW (1/50) 2000 sRes).2 = [stopEvW.payload] ∧
     stopEvW.payload.event = EName.silence ∧
     stopEvW.payload.items = some (maxSilenceItems kW) ∧ stopEvW.payload.abort = none) :=
  ⟨by norm_num [sampleThresholdsDecision, silence, sRes, kW, cW, maxSilenceItems, jround,
      stopEvW, stopPayloadW, averageSignal, average],
   rfl,
   ((derived_events_share_payload kW cW (1/50) 2000 sRes) stopEvW
     (by norm_num [sampleThresholdsDecision, silence, sRes, kW, cW, maxSilenceItems, jround,
        stopEvW, stopPayloadW, averageSignal, average])).2.2.2.1 rfl⟩
